import Mathlib

/-!
Verification development for the linux-kernel-keyring credential store.

The crate stores secrets in the Linux kernel key-management facility.  The
repository ships only the crate root (src/lib.rs), whose module documentation
describes the design; the submodules (credentials, error, builder) are not in
the tree.  The definitions below therefore model the missing components from
the specification: a kernel state with a key table, a Persistent Keyring and a
Session Keyring, the five keyutils-facing operations, and the Credential
composition root with its resolve / set / get / delete contract.  Secrets are
byte lists; passwords are carried to bytes by a UTF-8 codec modelled here as
well.
-/

/-- Modelled from the spec: UTF-8 encoding of a single Unicode code point
(set_password encodes the string as bytes with no normalization). -/
def utf8EncodeNat (n : Nat) : List Nat :=
  if n < 0x80 then [n]
  else if n < 0x800 then [0xC0 + n / 64, 0x80 + n % 64]
  else if n < 0x10000 then [0xE0 + n / 4096, 0x80 + n / 64 % 64, 0x80 + n % 64]
  else [0xF0 + n / 262144, 0x80 + n / 4096 % 64, 0x80 + n / 64 % 64, 0x80 + n % 64]

/-- Modelled from the spec: UTF-8 decoding loop.  Arguments: remaining bytes,
accumulated code point, number of continuation bytes still expected, lower
bound for the overlong-encoding check, output code points in reverse order. -/
def utf8DecodeLoop : List Nat → Nat → Nat → Nat → List Nat → Option (List Nat)
  | [], _, need, _, out => if need = 0 then some out.reverse else none
  | b :: bs, acc, need, lo, out =>
    if need = 0 then
      if b < 0x80 then utf8DecodeLoop bs 0 0 0 (b :: out)
      else if b < 0xC2 then none
      else if b < 0xE0 then utf8DecodeLoop bs (b - 0xC0) 1 0x80 out
      else if b < 0xF0 then utf8DecodeLoop bs (b - 0xE0) 2 0x800 out
      else if b < 0xF5 then utf8DecodeLoop bs (b - 0xF0) 3 0x10000 out
      else none
    else
      if 0x80 ≤ b ∧ b < 0xC0 then
        if need = 1 then
          if lo ≤ acc * 64 + (b - 0x80) ∧ acc * 64 + (b - 0x80) < 0x110000 then
            utf8DecodeLoop bs 0 0 0 ((acc * 64 + (b - 0x80)) :: out)
          else none
        else utf8DecodeLoop bs (acc * 64 + (b - 0x80)) (need - 1) lo out
      else none

/-- Decode a byte list into the list of encoded code points, or none. -/
def utf8DecodeNat (bs : List Nat) : Option (List Nat) :=
  utf8DecodeLoop bs 0 0 0 []

/-- Encode a list of code points. -/
def utf8EncodeList (ns : List Nat) : List Nat := ns.flatMap utf8EncodeNat

/-- Modelled from the spec: the raw byte transfer performed by set_password,
namely the UTF-8 bytes of the string. -/
def utf8Encode (s : String) : List Nat := utf8EncodeList (s.data.map Char.toNat)

/-- Modelled from the spec: the text decoding performed by get_password.
Returns none when the stored bytes are not valid text. -/
def utf8DecodeString (bs : List Nat) : Option String :=
  (utf8DecodeNat bs).bind fun ns =>
    if ns.all (fun n => decide n.isValidChar) then some ⟨ns.map Char.ofNat⟩ else none

/-- A kernel key: an externally-owned secret blob identified by its
description string. -/
structure Key where
  description : String
  payload : List Nat
deriving DecidableEq

/-- Modelled from the spec: the kernel key-management state.  Keys live in a
table indexed by numeric key identifiers; the Persistent Keyring and the
Session Keyring are sets of links to keys; the Persistent Keyring carries an
expiration timer whose default value is kernel configuration.  The fault field
injects a kernel-level rejection: when set, every kernel-facing call fails
with PlatformFailure carrying that code. -/
structure KernelState where
  keys : List (Nat × Key)
  nextId : Nat
  persistent : List Nat
  session : List Nat
  expiry : Nat
  defaultExpiry : Nat
  fault : Option Int
deriving DecidableEq

/-- Modelled from the spec: the closed error taxonomy surfaced to callers. -/
inductive KError where
  | NoEntry
  | BadEncoding (bytes : List Nat)
  | Ambiguous
  | PlatformFailure (code : Int)
deriving DecidableEq

deriving instance DecidableEq for Except

/-- Look up a key in the kernel key table by its identifier. -/
def lookupKey (k : KernelState) (kid : Nat) : Option Key :=
  (k.keys.find? (fun p => p.1 == kid)).map Prod.snd

/-- Search the Persistent Keyring for a key matching the description. -/
def searchPersistent (k : KernelState) (d : String) : Option Nat :=
  k.persistent.find? (fun kid =>
    match lookupKey k kid with
    | some key => key.description == d
    | none => false)

/-- Modelled from the spec: find_or_create searches the Persistent Keyring
for a key matching the description; if absent, creates a new key with empty
payload in that keyring. -/
def find_or_create (k : KernelState) (d : String) : Except KError (Nat × KernelState) :=
  match k.fault with
  | some c => .error (.PlatformFailure c)
  | none =>
    match searchPersistent k d with
    | some kid => .ok (kid, k)
    | none =>
      .ok (k.nextId, { k with
        keys := (k.nextId, ⟨d, []⟩) :: k.keys,
        nextId := k.nextId + 1,
        persistent := k.nextId :: k.persistent })

/-- Modelled from the spec: refresh_expiry resets the Persistent Keyring
expiration timer to the kernel-configured default. -/
def refresh_expiry (k : KernelState) (_kid : Nat) : KernelState :=
  { k with expiry := k.defaultExpiry }

/-- Modelled from the spec: set_secret replaces the payload of the key and,
on success, links the key into the Session Keyring as well. -/
def set_secret (k : KernelState) (kid : Nat) (bytes : List Nat) : Except KError KernelState :=
  match k.fault with
  | some c => .error (.PlatformFailure c)
  | none =>
    match lookupKey k kid with
    | none => .error .NoEntry
    | some _ =>
      .ok { k with
        keys := k.keys.map (fun p => if p.1 = kid then (p.1, ⟨p.2.description, bytes⟩) else p),
        session := if kid ∈ k.session then k.session else kid :: k.session }

/-- Modelled from the spec: get_secret reads the current payload and fails
with NoEntry when the key cannot be found in the Persistent Keyring. -/
def get_secret (k : KernelState) (kid : Nat) : Except KError (List Nat) :=
  match k.fault with
  | some c => .error (.PlatformFailure c)
  | none =>
    if kid ∈ k.persistent then
      match lookupKey k kid with
      | some key => .ok key.payload
      | none => .error .NoEntry
    else .error .NoEntry

/-- Modelled from the spec: delete unlinks the key from the Persistent
Keyring and from the Persistent Keyring only. -/
def delete (k : KernelState) (kid : Nat) : Except KError KernelState :=
  match k.fault with
  | some c => .error (.PlatformFailure c)
  | none => .ok { k with persistent := k.persistent.filter (fun j => j != kid) }

/-- A Credential: a handle holding the resolved description and the key
identifier obtained at construction time. -/
structure Credential where
  description : String
  kid : Nat
deriving DecidableEq

/-- Modelled from the spec: the Description Resolver.  A present and
non-empty target is returned verbatim; otherwise the derived string is
used. -/
def resolve (service user : String) (target : Option String) : String :=
  match target with
  | some t => if t = "" then "keyring:" ++ user ++ "@" ++ service else t
  | none => "keyring:" ++ user ++ "@" ++ service

/-- Modelled from the spec: Credential construction resolves the
Description, performs find_or_create and refresh_expiry eagerly. -/
def construct (k : KernelState) (service user : String) (target : Option String) :
    Except KError (Credential × KernelState) :=
  match find_or_create k (resolve service user target) with
  | .error e => .error e
  | .ok (kid, k1) => .ok (⟨resolve service user target, kid⟩, refresh_expiry k1 kid)

/-- Modelled from the spec: new(service, user). -/
def newCredential (k : KernelState) (service user : String) :
    Except KError (Credential × KernelState) :=
  construct k service user none

/-- Modelled from the spec: new_with_target(target, service, user). -/
def new_with_target (k : KernelState) (target service user : String) :
    Except KError (Credential × KernelState) :=
  construct k service user (some target)

/-- Modelled from the spec: set_password encodes the string as bytes and
delegates to set_secret. -/
def set_password (k : KernelState) (c : Credential) (s : String) : Except KError KernelState :=
  set_secret k c.kid (utf8Encode s)

/-- Modelled from the spec: get_password delegates to get_secret and decodes
the bytes as text, failing with BadEncoding when they are not valid text. -/
def get_password (k : KernelState) (c : Credential) : Except KError String :=
  match get_secret k c.kid with
  | .error e => .error e
  | .ok bytes =>
    match utf8DecodeString bytes with
    | some s => .ok s
    | none => .error (.BadEncoding bytes)

/-- Modelled from the spec: delete_credential delegates to delete. -/
def delete_credential (k : KernelState) (c : Credential) : Except KError KernelState :=
  delete k c.kid

/-- Modelled from the spec: get_attributes always succeeds with an empty
mapping and touches no state. -/
def get_attributes (k : KernelState) (_c : Credential) :
    Except KError (List (String × String) × KernelState) :=
  .ok ([], k)

/-- Modelled from the spec: update_attributes always succeeds and touches no
state. -/
def update_attributes (k : KernelState) (_c : Credential)
    (_attrs : List (String × String)) : Except KError KernelState :=
  .ok k

/-- Kernel lifecycle event: the Persistent Keyring expires, dropping all of
its links. -/
def expirePersistent (k : KernelState) : KernelState :=
  { k with persistent := [] }

/-- Kernel lifecycle event: the user logs out, clearing the Session
Keyring. -/
def logout (k : KernelState) : KernelState :=
  { k with session := [] }

/-- Kernel lifecycle event: a reboot clears all keyrings and the key
table. -/
def reboot (k : KernelState) : KernelState :=
  { k with keys := [], persistent := [], session := [] }

/-- A key is alive while it is linked into at least one keyring. -/
def keyAlive (k : KernelState) (kid : Nat) : Prop :=
  kid ∈ k.persistent ∨ kid ∈ k.session

/-- Decoding the encoding of one code point consumes exactly that point. -/
theorem utf8DecodeLoop_encode (n : Nat) (h : n < 0x110000) (bs out : List Nat) :
    utf8DecodeLoop (utf8EncodeNat n ++ bs) 0 0 0 out =
      utf8DecodeLoop bs 0 0 0 (n :: out) := by
  by_cases h1 : n < 0x80
  · rw [utf8EncodeNat, if_pos h1]
    show utf8DecodeLoop (n :: bs) 0 0 0 out = _
    rw [utf8DecodeLoop.eq_2, if_pos rfl, if_pos h1]
  · by_cases h2 : n < 0x800
    · rw [utf8EncodeNat, if_neg h1, if_pos h2]
      show utf8DecodeLoop ((0xC0 + n / 64) :: (0x80 + n % 64) :: bs) 0 0 0 out = _
      rw [utf8DecodeLoop.eq_2, if_pos rfl, if_neg (by omega : ¬ (0xC0 + n / 64 < 0x80)),
        if_neg (by omega : ¬ (0xC0 + n / 64 < 0xC2)), if_pos (by omega : 0xC0 + n / 64 < 0xE0)]
      rw [utf8DecodeLoop.eq_2, if_neg (by omega : ¬ ((1 : Nat) = 0)),
        if_pos (by omega : 0x80 ≤ 0x80 + n % 64 ∧ 0x80 + n % 64 < 0xC0), if_pos rfl,
        show (0xC0 + n / 64 - 0xC0) * 64 + (0x80 + n % 64 - 0x80) = n from by omega,
        if_pos (by omega : 0x80 ≤ n ∧ n < 0x110000)]
    · by_cases h3 : n < 0x10000
      · rw [utf8EncodeNat, if_neg h1, if_neg h2, if_pos h3]
        show utf8DecodeLoop ((0xE0 + n / 4096) :: (0x80 + n / 64 % 64) :: (0x80 + n % 64) :: bs)
          0 0 0 out = _
        rw [utf8DecodeLoop.eq_2, if_pos rfl, if_neg (by omega : ¬ (0xE0 + n / 4096 < 0x80)),
          if_neg (by omega : ¬ (0xE0 + n / 4096 < 0xC2)),
          if_neg (by omega : ¬ (0xE0 + n / 4096 < 0xE0)),
          if_pos (by omega : 0xE0 + n / 4096 < 0xF0)]
        rw [utf8DecodeLoop.eq_2, if_neg (by omega : ¬ ((2 : Nat) = 0)),
          if_pos (by omega : 0x80 ≤ 0x80 + n / 64 % 64 ∧ 0x80 + n / 64 % 64 < 0xC0),
          if_neg (by omega : ¬ ((2 : Nat) = 1)),
          show (0xE0 + n / 4096 - 0xE0) * 64 + (0x80 + n / 64 % 64 - 0x80) = n / 64 from by omega]
        rw [utf8DecodeLoop.eq_2, if_neg (by omega : ¬ ((2 - 1 : Nat) = 0)),
          if_pos (by omega : 0x80 ≤ 0x80 + n % 64 ∧ 0x80 + n % 64 < 0xC0),
          if_pos (by omega : (2 - 1 : Nat) = 1),
          show n / 64 * 64 + (0x80 + n % 64 - 0x80) = n from by omega,
          if_pos (by omega : 0x800 ≤ n ∧ n < 0x110000)]
      · rw [utf8EncodeNat, if_neg h1, if_neg h2, if_neg h3]
        show utf8DecodeLoop ((0xF0 + n / 262144) :: (0x80 + n / 4096 % 64) ::
          (0x80 + n / 64 % 64) :: (0x80 + n % 64) :: bs) 0 0 0 out = _
        rw [utf8DecodeLoop.eq_2, if_pos rfl, if_neg (by omega : ¬ (0xF0 + n / 262144 < 0x80)),
          if_neg (by omega : ¬ (0xF0 + n / 262144 < 0xC2)),
          if_neg (by omega : ¬ (0xF0 + n / 262144 < 0xE0)),
          if_neg (by omega : ¬ (0xF0 + n / 262144 < 0xF0)),
          if_pos (by omega : 0xF0 + n / 262144 < 0xF5)]
        rw [utf8DecodeLoop.eq_2, if_neg (by omega : ¬ ((3 : Nat) = 0)),
          if_pos (by omega : 0x80 ≤ 0x80 + n / 4096 % 64 ∧ 0x80 + n / 4096 % 64 < 0xC0),
          if_neg (by omega : ¬ ((3 : Nat) = 1)),
          show (0xF0 + n / 262144 - 0xF0) * 64 + (0x80 + n / 4096 % 64 - 0x80) = n / 4096
            from by omega]
        rw [utf8DecodeLoop.eq_2, if_neg (by omega : ¬ ((3 - 1 : Nat) = 0)),
          if_pos (by omega : 0x80 ≤ 0x80 + n / 64 % 64 ∧ 0x80 + n / 64 % 64 < 0xC0),
          if_neg (by omega : ¬ ((3 - 1 : Nat) = 1)),
          show n / 4096 * 64 + (0x80 + n / 64 % 64 - 0x80) = n / 64 from by omega]
        rw [utf8DecodeLoop.eq_2, if_neg (by omega : ¬ ((3 - 1 - 1 : Nat) = 0)),
          if_pos (by omega : 0x80 ≤ 0x80 + n % 64 ∧ 0x80 + n % 64 < 0xC0),
          if_pos (by omega : (3 - 1 - 1 : Nat) = 1),
          show n / 64 * 64 + (0x80 + n % 64 - 0x80) = n from by omega,
          if_pos (by omega : 0x10000 ≤ n ∧ n < 0x110000)]

/-- Decoding the encoding of a list of code points accumulates them all. -/
theorem utf8DecodeLoop_encodeList (ns : List Nat) (h : ∀ n ∈ ns, n < 0x110000)
    (bs out : List Nat) :
    utf8DecodeLoop (utf8EncodeList ns ++ bs) 0 0 0 out =
      utf8DecodeLoop bs 0 0 0 (ns.reverse ++ out) := by
  induction ns generalizing out with
  | nil => simp [utf8EncodeList]
  | cons n ns ih =>
    have hn : n < 0x110000 := h n (by simp)
    have hns : ∀ m ∈ ns, m < 0x110000 := fun m hm => h m (by simp [hm])
    rw [show utf8EncodeList (n :: ns) = utf8EncodeNat n ++ utf8EncodeList ns from rfl,
      List.append_assoc, utf8DecodeLoop_encode n hn, ih hns]
    simp

/-- Round trip at the level of code points. -/
theorem utf8DecodeNat_encodeList (ns : List Nat) (h : ∀ n ∈ ns, n < 0x110000) :
    utf8DecodeNat (utf8EncodeList ns) = some ns := by
  have hx := utf8DecodeLoop_encodeList ns h [] []
  rw [List.append_nil] at hx
  rw [utf8DecodeNat, hx, utf8DecodeLoop.eq_1, if_pos rfl]
  simp

/-- Every character has a code point below 0x110000. -/
theorem char_toNat_lt (c : Char) : c.toNat < 0x110000 := by
  rcases c.valid with h | ⟨_, h2⟩
  · exact Nat.lt_trans h (by norm_num)
  · exact h2

/-- Round trip: the UTF-8 bytes of a string decode back to that string, with
no normalization or truncation. -/
theorem utf8DecodeString_encode (s : String) : utf8DecodeString (utf8Encode s) = some s := by
  have hb : ∀ n ∈ s.data.map Char.toNat, n < 0x110000 := by
    intro n hn
    obtain ⟨c, _, rfl⟩ := List.mem_map.mp hn
    exact char_toNat_lt c
  rw [utf8DecodeString, utf8Encode, utf8DecodeNat_encodeList _ hb, Option.some_bind,
    if_pos (by
      rw [List.all_eq_true]
      intro n hn
      obtain ⟨c, _, rfl⟩ := List.mem_map.mp hn
      exact decide_eq_true c.valid)]
  rw [List.map_map]
  have hid : (Char.ofNat ∘ Char.toNat) = id := by
    funext c
    exact Char.ofNat_toNat c
  rw [hid, List.map_id]

/-- A successful search yields a linked key whose description matches. -/
theorem searchPersistent_some (k : KernelState) (d : String) (kid : Nat)
    (h : searchPersistent k d = some kid) :
    kid ∈ k.persistent ∧ ∃ key, lookupKey k kid = some key ∧ key.description = d := by
  refine ⟨List.mem_of_find?_eq_some h, ?_⟩
  have hp := List.find?_some h
  cases hl : lookupKey k kid with
  | none => rw [hl] at hp; simp at hp
  | some key =>
    rw [hl] at hp
    exact ⟨key, rfl, by simpa using hp⟩

/-- Updating the payload of one key rewrites exactly its table entry. -/
theorem find?_update_eq (keys : List (Nat × Key)) (kid : Nat) (bytes : List Nat) :
    (keys.map (fun p => if p.1 = kid then (p.1, Key.mk p.2.description bytes) else p)).find?
        (fun p => p.1 == kid) =
      (keys.find? (fun p => p.1 == kid)).map
        (fun p => (p.1, Key.mk p.2.description bytes)) := by
  induction keys with
  | nil => rfl
  | cons a l ih =>
    by_cases ha : a.1 = kid
    · simp [List.find?_cons, ha, ih]
    · simp [List.find?_cons, ha, ih]

/-- Postconditions of a successful find_or_create. -/
theorem find_or_create_ok (k : KernelState) (d : String) (kid : Nat) (k1 : KernelState)
    (h : find_or_create k d = .ok (kid, k1)) :
    k1.fault = k.fault ∧ k1.session = k.session ∧ k1.defaultExpiry = k.defaultExpiry ∧
    kid ∈ k1.persistent ∧
    searchPersistent k1 d = some kid ∧
    (∃ key, lookupKey k1 kid = some key ∧ key.description = d) := by
  unfold find_or_create at h
  cases hf : k.fault with
  | some c => rw [hf] at h; cases h
  | none =>
    rw [hf] at h
    cases hs : searchPersistent k d with
    | some kid0 =>
      rw [hs] at h
      simp only [Except.ok.injEq, Prod.mk.injEq] at h
      obtain ⟨rfl, rfl⟩ := h
      obtain ⟨hmem, key, hl, hkd⟩ := searchPersistent_some k d kid0 hs
      exact ⟨hf.symm ▸ rfl, rfl, rfl, hmem, hs, key, hl, hkd⟩
    | none =>
      rw [hs] at h
      simp only [Except.ok.injEq, Prod.mk.injEq] at h
      obtain ⟨rfl, rfl⟩ := h
      have hl : lookupKey { k with
          keys := (k.nextId, ⟨d, []⟩) :: k.keys,
          nextId := k.nextId + 1,
          persistent := k.nextId :: k.persistent,
          fault := none } k.nextId = some ⟨d, []⟩ := by
        unfold lookupKey
        rw [List.find?_cons_of_pos _ (by simp)]
        rfl
      refine ⟨rfl, rfl, rfl, List.mem_cons_self _ _, ?_, ⟨d, []⟩, hl, rfl⟩
      unfold searchPersistent
      refine List.find?_cons_of_pos _ ?_
      beta_reduce
      rw [hl]
      simp

/-- Postconditions of a successful Credential construction. -/
theorem construct_ok (k : KernelState) (service user : String) (t : Option String)
    (c : Credential) (k' : KernelState)
    (h : construct k service user t = .ok (c, k')) :
    c.description = resolve service user t ∧
    k'.fault = k.fault ∧ k'.session = k.session ∧ k'.expiry = k.defaultExpiry ∧
    k'.defaultExpiry = k.defaultExpiry ∧
    c.kid ∈ k'.persistent ∧
    searchPersistent k' c.description = some c.kid ∧
    (∃ key, lookupKey k' c.kid = some key ∧ key.description = c.description) := by
  unfold construct at h
  cases hfc : find_or_create k (resolve service user t) with
  | error e => rw [hfc] at h; cases h
  | ok pr =>
    obtain ⟨kid, k1⟩ := pr
    rw [hfc] at h
    simp only [Except.ok.injEq, Prod.mk.injEq] at h
    obtain ⟨rfl, rfl⟩ := h
    obtain ⟨hfa, hse, hde, hmem, hsp, key, hl, hkd⟩ :=
      find_or_create_ok k (resolve service user t) kid k1 hfc
    exact ⟨rfl, hfa, hse, hde, hde, hmem, hsp, key, hl, hkd⟩

/-- Postconditions of a successful set_secret. -/
theorem set_secret_ok (k : KernelState) (kid : Nat) (bytes : List Nat) (k' : KernelState)
    (h : set_secret k kid bytes = .ok k') :
    k'.persistent = k.persistent ∧ k'.expiry = k.expiry ∧ k'.fault = k.fault ∧
    k'.defaultExpiry = k.defaultExpiry ∧
    kid ∈ k'.session ∧ (∀ j, j ∈ k.session → j ∈ k'.session) ∧
    (∀ key, lookupKey k kid = some key →
      lookupKey k' kid = some ⟨key.description, bytes⟩) := by
  unfold set_secret at h
  cases hf : k.fault with
  | some c => rw [hf] at h; cases h
  | none =>
    rw [hf] at h
    cases hl : lookupKey k kid with
    | none => rw [hl] at h; cases h
    | some key0 =>
      rw [hl] at h
      simp only [Except.ok.injEq] at h
      subst h
      refine ⟨rfl, rfl, hf.symm ▸ rfl, rfl, ?_, ?_, ?_⟩
      · by_cases hm : kid ∈ k.session
        · simp [hm]
        · simp [hm]
      · intro j hj
        by_cases hm : kid ∈ k.session
        · simpa [hm] using hj
        · simp [hm, hj]
      · intro key hkey
        have hkk : key0 = key := by simpa using hkey
        subst hkk
        show (List.find? _ _).map Prod.snd = _
        rw [find?_update_eq]
        unfold lookupKey at hl
        cases hfind : k.keys.find? (fun p => p.1 == kid) with
        | none => rw [hfind] at hl; cases hl
        | some p =>
          rw [hfind] at hl
          have hp2 : p.2 = key0 := by simpa using hl
          subst hp2
          simp [hfind]

/-- set_secret succeeds whenever the key exists and no fault is injected. -/
theorem set_secret_success (k : KernelState) (kid : Nat) (bytes : List Nat)
    (hf : k.fault = none) (hl : (lookupKey k kid).isSome) :
    ∃ k', set_secret k kid bytes = .ok k' := by
  unfold set_secret
  rw [hf]
  cases hlk : lookupKey k kid with
  | none => rw [hlk] at hl; cases hl
  | some key => exact ⟨_, rfl⟩

/-- get_secret returns the payload of a key linked in the Persistent
Keyring. -/
theorem get_secret_found (k : KernelState) (kid : Nat) (key : Key)
    (hf : k.fault = none) (hp : kid ∈ k.persistent) (hl : lookupKey k kid = some key) :
    get_secret k kid = .ok key.payload := by
  simp [get_secret, hf, hp, hl]

/-- Without injected faults, get_secret fails with NoEntry exactly when the
key cannot be found in the Persistent Keyring. -/
theorem get_secret_noentry_iff (k : KernelState) (kid : Nat) (hf : k.fault = none) :
    get_secret k kid = .error .NoEntry ↔
      (kid ∉ k.persistent ∨ lookupKey k kid = none) := by
  simp only [get_secret, hf]
  by_cases hp : kid ∈ k.persistent
  · rw [if_pos hp]
    cases hl : lookupKey k kid with
    | none => simp [hp]
    | some key => simp [hp]
  · rw [if_neg hp]
    simp [hp]

/-- get_password returns the decoded payload of a linked key. -/
theorem get_password_found (k : KernelState) (c : Credential) (key : Key) (s : String)
    (hf : k.fault = none) (hp : c.kid ∈ k.persistent) (hl : lookupKey k c.kid = some key)
    (hdec : utf8DecodeString key.payload = some s) :
    get_password k c = .ok s := by
  have hg := get_secret_found k c.kid key hf hp hl
  simp [get_password, hg, hdec]

/-- get_password propagates errors of get_secret. -/
theorem get_password_err (k : KernelState) (c : Credential) (e : KError)
    (hg : get_secret k c.kid = .error e) : get_password k c = .error e := by
  simp [get_password, hg]

/-- Without faults, delete returns the state with the key unlinked from the
Persistent Keyring and nothing else changed. -/
theorem delete_ok (k : KernelState) (kid : Nat) (hf : k.fault = none) :
    delete k kid = .ok { k with persistent := k.persistent.filter (fun j => j != kid) } := by
  simp [delete, hf]

/-- Membership in the Persistent Keyring after an unlink. -/
theorem mem_filter_ne (l : List Nat) (kid j : Nat) :
    j ∈ l.filter (fun i => i != kid) ↔ j ∈ l ∧ j ≠ kid := by
  simp [List.mem_filter]

/-- When the description is absent, construction creates a fresh key with
empty payload and resets the expiration timer. -/
theorem construct_create (k : KernelState) (service user : String) (t : Option String)
    (hf : k.fault = none) (hs : searchPersistent k (resolve service user t) = none) :
    construct k service user t = .ok (⟨resolve service user t, k.nextId⟩,
      { k with
        keys := (k.nextId, ⟨resolve service user t, []⟩) :: k.keys,
        nextId := k.nextId + 1,
        persistent := k.nextId :: k.persistent,
        expiry := k.defaultExpiry }) := by
  unfold construct find_or_create
  rw [hf, hs]
  rfl

/-- Reading a freshly created empty key yields the empty string: the empty
payload decodes as empty text. -/
theorem construct_fresh_get_empty (k : KernelState) (service user : String)
    (t : Option String) (c : Credential) (k1 : KernelState)
    (hf : k.fault = none)
    (hcon : construct k service user t = .ok (c, k1))
    (hs : searchPersistent k (resolve service user t) = none) :
    get_password k1 c = .ok "" := by
  rw [construct_create k service user t hf hs] at hcon
  simp only [Except.ok.injEq, Prod.mk.injEq] at hcon
  obtain ⟨rfl, rfl⟩ := hcon.symm
  have hl : lookupKey { k with
      keys := (k.nextId, ⟨resolve service user t, []⟩) :: k.keys,
      nextId := k.nextId + 1,
      persistent := k.nextId :: k.persistent,
      expiry := k.defaultExpiry } k.nextId = some ⟨resolve service user t, []⟩ := by
    unfold lookupKey
    rw [List.find?_cons_of_pos _ (by simp)]
    rfl
  have hdec : utf8DecodeString [] = some "" := by decide
  exact get_password_found _ _ ⟨resolve service user t, []⟩ ""
    hf (List.mem_cons_self _ _) hl hdec

/-- Splitting a character list at a marker absent from both prefixes is
unique. -/
theorem append_marker_inj : ∀ (u1 u2 s1 s2 : List Char), ('@' : Char) ∉ u1 →
    ('@' : Char) ∉ u2 → u1 ++ '@' :: s1 = u2 ++ '@' :: s2 → u1 = u2 ∧ s1 = s2 := by
  intro u1
  induction u1 with
  | nil =>
    intro u2 s1 s2 _ h2 h
    cases u2 with
    | nil => simpa using h
    | cons b bs =>
      simp only [List.nil_append, List.cons_append, List.cons.injEq] at h
      obtain ⟨hb, -⟩ := h
      subst hb
      exact absurd (List.mem_cons_self _ _) h2
  | cons a as ih =>
    intro u2 s1 s2 h1 h2 h
    cases u2 with
    | nil =>
      simp only [List.cons_append, List.nil_append, List.cons.injEq] at h
      obtain ⟨ha, -⟩ := h
      subst ha
      exact absurd (List.mem_cons_self _ _) h1
    | cons b bs =>
      simp only [List.cons_append, List.cons.injEq] at h
      obtain ⟨rfl, h'⟩ := h
      have hh1 : ('@' : Char) ∉ as := fun hm => h1 (List.mem_cons_of_mem _ hm)
      have hh2 : ('@' : Char) ∉ bs := fun hm => h2 (List.mem_cons_of_mem _ hm)
      obtain ⟨rfl, rfl⟩ := ih bs s1 s2 hh1 hh2 h'
      exact ⟨rfl, rfl⟩

/-- The characters of a derived description. -/
theorem resolve_data (service user : String) :
    (resolve service user none).data =
      "keyring:".data ++ (user.data ++ ('@' :: service.data)) := by
  show ("keyring:" ++ user ++ "@" ++ service).data = _
  rw [String.data_append, String.data_append, String.data_append,
    List.append_assoc, List.append_assoc]
  rfl

/-- Claim C1: for any text s, calling set_password(s) and then get_password()
on the same Credential, immediately after the set and within the same process,
returns exactly s; set_password transfers the UTF-8 bytes of the string raw,
with no normalization, truncation, or re-encoding. -/
theorem claim_C1_roundtrip (k : KernelState) (service user : String)
    (target : Option String) (s : String) (c : Credential) (k1 k2 : KernelState)
    (hf : k.fault = none)
    (hcon : construct k service user target = .ok (c, k1))
    (hset : set_password k1 c s = .ok k2) :
    get_password k2 c = .ok s ∧
    set_password k1 c s = set_secret k1 c.kid (utf8Encode s) ∧
    (∃ key, lookupKey k2 c.kid = some key ∧ key.payload = utf8Encode s) := by
  obtain ⟨-, hfa1, -, -, -, hmem, -, key0, hl0, -⟩ :=
    construct_ok k service user target c k1 hcon
  obtain ⟨hper, -, hfa2, -, -, -, hupd⟩ :=
    set_secret_ok k1 c.kid (utf8Encode s) k2 hset
  have hl2 : lookupKey k2 c.kid = some ⟨key0.description, utf8Encode s⟩ := hupd key0 hl0
  have hf2 : k2.fault = none := hfa2.trans (hfa1.trans hf)
  refine ⟨?_, rfl, ⟨_, hl2, rfl⟩⟩
  exact get_password_found k2 c ⟨key0.description, utf8Encode s⟩ s hf2
    (hper ▸ hmem) hl2 (utf8DecodeString_encode s)

/-- Witness for claim C1 at a concrete run. -/
theorem claim_C1_roundtrip_witness :
    get_password
        ⟨[(0, ⟨"keyring:u1@svc", [104, 117, 110, 116, 101, 114, 50]⟩)],
          1, [0], [0], 3, 3, none⟩ ⟨"keyring:u1@svc", 0⟩ = .ok "hunter2" ∧
    set_password ⟨[(0, ⟨"keyring:u1@svc", []⟩)], 1, [0], [], 3, 3, none⟩
        ⟨"keyring:u1@svc", 0⟩ "hunter2" =
      set_secret ⟨[(0, ⟨"keyring:u1@svc", []⟩)], 1, [0], [], 3, 3, none⟩ 0
        (utf8Encode "hunter2") ∧
    (∃ key, lookupKey
        ⟨[(0, ⟨"keyring:u1@svc", [104, 117, 110, 116, 101, 114, 50]⟩)],
          1, [0], [0], 3, 3, none⟩ 0 = some key ∧
      key.payload = utf8Encode "hunter2") :=
  claim_C1_roundtrip ⟨[], 0, [], [], 0, 3, none⟩ "svc" "u1" none "hunter2"
    ⟨"keyring:u1@svc", 0⟩
    ⟨[(0, ⟨"keyring:u1@svc", []⟩)], 1, [0], [], 3, 3, none⟩
    ⟨[(0, ⟨"keyring:u1@svc", [104, 117, 110, 116, 101, 114, 50]⟩)], 1, [0], [0], 3, 3, none⟩
    rfl (by decide) (by decide)

/-- Claim C2: the resolved Description equals the target string unchanged
whenever the target is present and non-empty, and otherwise equals exactly
the string keyring:user@service; resolution is a total pure function. -/
theorem claim_C2_resolution (service user : String) (target : Option String) :
    (∀ t, target = some t → t ≠ "" → resolve service user target = t) ∧
    (target = none ∨ target = some "" →
      resolve service user target = "keyring:" ++ user ++ "@" ++ service) := by
  constructor
  · rintro t rfl ht
    simp [resolve, ht]
  · rintro (rfl | rfl) <;> simp [resolve]

/-- Witness for claim C2 at concrete inputs. -/
theorem claim_C2_resolution_witness :
    resolve "svc" "u1" (some "custom-id") = "custom-id" ∧
    resolve "svc" "u1" none = "keyring:" ++ "u1" ++ "@" ++ "svc" :=
  ⟨(claim_C2_resolution "svc" "u1" (some "custom-id")).1 "custom-id" rfl (by decide),
   (claim_C2_resolution "svc" "u1" none).2 (Or.inl rfl)⟩

/-- Claim C9: get_attributes always succeeds with an empty mapping,
update_attributes always succeeds, and neither operation reads or writes any
state: the kernel state is returned unchanged. -/
theorem claim_C9_attributes_noop (k : KernelState) (c : Credential)
    (attrs : List (String × String)) :
    get_attributes k c = .ok ([], k) ∧ update_attributes k c attrs = .ok k :=
  ⟨rfl, rfl⟩

/-- Claim C10: a stored user key remains alive as long as at least one of
its keyrings is alive: it stays alive when the Persistent Keyring expires
while the session is active, and when the user logs out while the Persistent
Keyring is active; it dies when both are gone, and a reboot clears all
keyrings. -/
theorem claim_C10_key_lifetime (k : KernelState) (kid : Nat)
    (hp : kid ∈ k.persistent) (hs : kid ∈ k.session) :
    keyAlive k kid ∧
    keyAlive (expirePersistent k) kid ∧
    keyAlive (logout k) kid ∧
    ¬ keyAlive (logout (expirePersistent k)) kid ∧
    ¬ keyAlive (reboot k) kid := by
  refine ⟨Or.inl hp, Or.inr hs, Or.inl hp, ?_, ?_⟩
  · rintro (h | h) <;> simp [keyAlive, logout, expirePersistent] at h
  · rintro (h | h) <;> simp [keyAlive, reboot] at h

/-- Witness for claim C10 at a concrete stored key. -/
theorem claim_C10_key_lifetime_witness :
    keyAlive ⟨[(0, ⟨"keyring:u1@svc", [112]⟩)], 1, [0], [0], 3, 3, none⟩ 0 ∧
    keyAlive (expirePersistent ⟨[(0, ⟨"keyring:u1@svc", [112]⟩)], 1, [0], [0], 3, 3, none⟩) 0 ∧
    keyAlive (logout ⟨[(0, ⟨"keyring:u1@svc", [112]⟩)], 1, [0], [0], 3, 3, none⟩) 0 ∧
    ¬ keyAlive (logout (expirePersistent
        ⟨[(0, ⟨"keyring:u1@svc", [112]⟩)], 1, [0], [0], 3, 3, none⟩)) 0 ∧
    ¬ keyAlive (reboot ⟨[(0, ⟨"keyring:u1@svc", [112]⟩)], 1, [0], [0], 3, 3, none⟩) 0 :=
  claim_C10_key_lifetime ⟨[(0, ⟨"keyring:u1@svc", [112]⟩)], 1, [0], [0], 3, 3, none⟩ 0
    (by decide) (by decide)

/-- Claim C3: two Credentials with equal descriptions refer to the same kernel
key: after set_password on one of two Credentials whose descriptions resolve
equal (same (service, user), or same explicit target with different
service/user), get_password on the other returns the same value. -/
theorem claim_C3_shared_key (k : KernelState) (s1 u1 s2 u2 : String)
    (t1 t2 : Option String) (str : String) (c1 c2 : Credential)
    (k1 k2 k3 : KernelState)
    (hf : k.fault = none)
    (hd : resolve s1 u1 t1 = resolve s2 u2 t2)
    (h1 : construct k s1 u1 t1 = .ok (c1, k1))
    (h2 : construct k1 s2 u2 t2 = .ok (c2, k2))
    (hset : set_password k2 c1 str = .ok k3) :
    c2.kid = c1.kid ∧ c2.description = c1.description ∧
    get_password k3 c2 = .ok str := by
  obtain ⟨hdesc1, hfa1, -, -, -, hmem1, hsp1, key1, hl1, -⟩ :=
    construct_ok k s1 u1 t1 c1 k1 h1
  have hf1 : k1.fault = none := hfa1.trans hf
  have hfc2 : find_or_create k1 (resolve s2 u2 t2) = .ok (c1.kid, k1) := by
    unfold find_or_create
    rw [hf1, ← hd, ← hdesc1, hsp1]
  have h2x : construct k1 s2 u2 t2 =
      .ok (⟨resolve s2 u2 t2, c1.kid⟩, refresh_expiry k1 c1.kid) := by
    unfold construct
    rw [hfc2]
  rw [h2x] at h2
  simp only [Except.ok.injEq, Prod.mk.injEq] at h2
  obtain ⟨hA, hB⟩ := h2
  subst hA
  subst hB
  obtain ⟨hper3, -, hfa3, -, -, -, hupd⟩ :=
    set_secret_ok (refresh_expiry k1 c1.kid) c1.kid (utf8Encode str) k3 hset
  have hl3 : lookupKey k3 c1.kid = some ⟨key1.description, utf8Encode str⟩ := hupd key1 hl1
  have hf3 : k3.fault = none := hfa3.trans hf1
  have hmem3 : c1.kid ∈ k3.persistent := by
    rw [hper3]
    exact hmem1
  refine ⟨rfl, ?_, ?_⟩
  · show resolve s2 u2 t2 = c1.description
    rw [hdesc1, hd]
  · exact get_password_found k3 ⟨resolve s2 u2 t2, c1.kid⟩
      ⟨key1.description, utf8Encode str⟩ str hf3 hmem3 hl3 (utf8DecodeString_encode str)

/-- Witness for claim C3: two Credentials with the same explicit target and
different service/user share one key. -/
theorem claim_C3_shared_key_witness :
    (⟨"custom-id", 0⟩ : Credential).kid = (⟨"custom-id", 0⟩ : Credential).kid ∧
    (⟨"custom-id", 0⟩ : Credential).description =
      (⟨"custom-id", 0⟩ : Credential).description ∧
    get_password ⟨[(0, ⟨"custom-id", [112]⟩)], 1, [0], [0], 3, 3, none⟩
      ⟨"custom-id", 0⟩ = .ok "p" :=
  claim_C3_shared_key ⟨[], 0, [], [], 0, 3, none⟩ "svc1" "a" "svc2" "b"
    (some "custom-id") (some "custom-id") "p"
    ⟨"custom-id", 0⟩ ⟨"custom-id", 0⟩
    ⟨[(0, ⟨"custom-id", []⟩)], 1, [0], [], 3, 3, none⟩
    ⟨[(0, ⟨"custom-id", []⟩)], 1, [0], [], 3, 3, none⟩
    ⟨[(0, ⟨"custom-id", [112]⟩)], 1, [0], [0], 3, 3, none⟩
    rfl (by decide) (by decide) (by decide) (by decide)

/-- Counterexample to claim C4 as stated: on a never-written Credential the
eager find_or_create performed at construction has already created an
empty-payload key, so get_password succeeds with the empty string instead of
failing with NoEntry. -/
theorem claim_C4_counterexample :
    construct ⟨[], 0, [], [], 0, 3, none⟩ "svc" "u1" none =
      .ok (⟨"keyring:u1@svc", 0⟩,
        ⟨[(0, ⟨"keyring:u1@svc", []⟩)], 1, [0], [], 3, 3, none⟩) ∧
    get_password ⟨[(0, ⟨"keyring:u1@svc", []⟩)], 1, [0], [], 3, 3, none⟩
      ⟨"keyring:u1@svc", 0⟩ = .ok "" ∧
    (Except.ok "" : Except KError String) ≠ .error .NoEntry := by
  refine ⟨by decide, by decide, by decide⟩

/-- Claim C4 (amended): get_password on a never-written Credential returns
the empty string, because construction created the key with empty payload;
get_secret fails with NoEntry exactly when the key cannot be found in the
Persistent Keyring; and when the key is found but its bytes are not valid
text, get_password fails with BadEncoding, which is distinct from NoEntry. -/
theorem claim_C4_errors (k : KernelState) (service user : String)
    (target : Option String) (c : Credential) (k1 : KernelState)
    (kid : Nat) (key : Key)
    (hf : k.fault = none)
    (hcon : construct k service user target = .ok (c, k1))
    (hs : searchPersistent k (resolve service user target) = none)
    (hp : kid ∈ k.persistent) (hl : lookupKey k kid = some key)
    (hbad : utf8DecodeString key.payload = none) :
    get_password k1 c = .ok "" ∧
    (∀ j, get_secret k j = .error .NoEntry ↔ (j ∉ k.persistent ∨ lookupKey k j = none)) ∧
    get_password k ⟨key.description, kid⟩ = .error (.BadEncoding key.payload) ∧
    (∀ bs, KError.BadEncoding bs ≠ KError.NoEntry) := by
  refine ⟨construct_fresh_get_empty k service user target c k1 hf hcon hs,
    fun j => get_secret_noentry_iff k j hf, ?_, fun bs h => by cases h⟩
  have hg := get_secret_found k kid key hf hp hl
  simp [get_password, hg, hbad]

/-- Witness for the amended claim C4 at a concrete state holding a key with
non-text bytes. -/
theorem claim_C4_errors_witness :
    get_password ⟨[(6, ⟨"keyring:u1@svc", []⟩), (5, ⟨"other", [255]⟩)],
        7, [6, 5], [], 3, 3, none⟩ ⟨"keyring:u1@svc", 6⟩ = .ok "" ∧
    (∀ j, get_secret ⟨[(5, ⟨"other", [255]⟩)], 6, [5], [], 3, 3, none⟩ j =
        .error .NoEntry ↔
      (j ∉ (⟨[(5, ⟨"other", [255]⟩)], 6, [5], [], 3, 3, none⟩ : KernelState).persistent ∨
        lookupKey ⟨[(5, ⟨"other", [255]⟩)], 6, [5], [], 3, 3, none⟩ j = none)) ∧
    get_password ⟨[(5, ⟨"other", [255]⟩)], 6, [5], [], 3, 3, none⟩ ⟨"other", 5⟩ =
      .error (.BadEncoding [255]) ∧
    (∀ bs, KError.BadEncoding bs ≠ KError.NoEntry) :=
  claim_C4_errors ⟨[(5, ⟨"other", [255]⟩)], 6, [5], [], 3, 3, none⟩ "svc" "u1" none
    ⟨"keyring:u1@svc", 6⟩
    ⟨[(6, ⟨"keyring:u1@svc", []⟩), (5, ⟨"other", [255]⟩)], 7, [6, 5], [], 3, 3, none⟩
    5 ⟨"other", [255]⟩
    rfl (by decide) (by decide) (by decide) (by decide) (by decide)

/-- Counterexample to claim C5 as stated: after delete_credential, a freshly
constructed Credential for the same identity re-creates an empty key in the
Persistent Keyring, so its immediate get_password returns the empty string
instead of failing with NoEntry. -/
theorem claim_C5_counterexample :
    delete_credential
        ⟨[(0, ⟨"keyring:u1@svc", [104, 117, 110, 116, 101, 114, 50]⟩)],
          1, [0], [0], 3, 3, none⟩ ⟨"keyring:u1@svc", 0⟩ =
      .ok ⟨[(0, ⟨"keyring:u1@svc", [104, 117, 110, 116, 101, 114, 50]⟩)],
          1, [], [0], 3, 3, none⟩ ∧
    construct ⟨[(0, ⟨"keyring:u1@svc", [104, 117, 110, 116, 101, 114, 50]⟩)],
          1, [], [0], 3, 3, none⟩ "svc" "u1" none =
      .ok (⟨"keyring:u1@svc", 1⟩,
        ⟨[(1, ⟨"keyring:u1@svc", []⟩),
          (0, ⟨"keyring:u1@svc", [104, 117, 110, 116, 101, 114, 50]⟩)],
          2, [1], [0], 3, 3, none⟩) ∧
    get_password ⟨[(1, ⟨"keyring:u1@svc", []⟩),
          (0, ⟨"keyring:u1@svc", [104, 117, 110, 116, 101, 114, 50]⟩)],
          2, [1], [0], 3, 3, none⟩ ⟨"keyring:u1@svc", 1⟩ = .ok "" ∧
    (Except.ok "" : Except KError String) ≠ .error .NoEntry := by
  refine ⟨by decide, by decide, by decide, by decide⟩

/-- Claim C5 (amended): delete_credential unlinks the key from the Persistent
Keyring only — the Session Keyring and the key table are untouched, so the
credential may remain transiently readable there until session end — and
after delete_credential an immediate get_password on the same Credential
fails with NoEntry, while a freshly constructed Credential for the same
identity re-creates an empty key and its get_password returns the empty
string. -/
theorem claim_C5_delete (k : KernelState) (c : Credential) (kd : KernelState)
    (hf : k.fault = none)
    (hdel : delete_credential k c = .ok kd) :
    kd.session = k.session ∧ kd.keys = k.keys ∧
    c.kid ∉ kd.persistent ∧
    (∀ j, j ∈ kd.persistent ↔ (j ∈ k.persistent ∧ j ≠ c.kid)) ∧
    get_password kd c = .error .NoEntry ∧
    (∀ service user target c2 k2,
      construct kd service user target = .ok (c2, k2) →
      searchPersistent kd (resolve service user target) = none →
      get_password k2 c2 = .ok "") := by
  unfold delete_credential at hdel
  rw [delete_ok k c.kid hf] at hdel
  simp only [Except.ok.injEq] at hdel
  subst hdel
  refine ⟨rfl, rfl, ?_, ?_, ?_, ?_⟩
  · intro hmem
    exact ((mem_filter_ne k.persistent c.kid c.kid).1 hmem).2 rfl
  · intro j
    exact mem_filter_ne k.persistent c.kid j
  · refine get_password_err
      { k with persistent := k.persistent.filter (fun j => j != c.kid) } c .NoEntry ?_
    refine (get_secret_noentry_iff
      { k with persistent := k.persistent.filter (fun j => j != c.kid) } c.kid hf).2
      (Or.inl ?_)
    intro hmem
    exact ((mem_filter_ne k.persistent c.kid c.kid).1 hmem).2 rfl
  · intro service user target c2 k2 hcon hs
    exact construct_fresh_get_empty
      { k with persistent := k.persistent.filter (fun j => j != c.kid) }
      service user target c2 k2 hf hcon hs

/-- Witness for the amended claim C5 at a concrete deletion. -/
theorem claim_C5_delete_witness :
    (⟨[(0, ⟨"keyring:u1@svc", [104, 117, 110, 116, 101, 114, 50]⟩)],
        1, [], [0], 3, 3, none⟩ : KernelState).session =
      (⟨[(0, ⟨"keyring:u1@svc", [104, 117, 110, 116, 101, 114, 50]⟩)],
        1, [0], [0], 3, 3, none⟩ : KernelState).session ∧
    (⟨[(0, ⟨"keyring:u1@svc", [104, 117, 110, 116, 101, 114, 50]⟩)],
        1, [], [0], 3, 3, none⟩ : KernelState).keys =
      (⟨[(0, ⟨"keyring:u1@svc", [104, 117, 110, 116, 101, 114, 50]⟩)],
        1, [0], [0], 3, 3, none⟩ : KernelState).keys ∧
    (⟨"keyring:u1@svc", 0⟩ : Credential).kid ∉
      (⟨[(0, ⟨"keyring:u1@svc", [104, 117, 110, 116, 101, 114, 50]⟩)],
        1, [], [0], 3, 3, none⟩ : KernelState).persistent ∧
    (∀ j, j ∈ (⟨[(0, ⟨"keyring:u1@svc", [104, 117, 110, 116, 101, 114, 50]⟩)],
        1, [], [0], 3, 3, none⟩ : KernelState).persistent ↔
      (j ∈ (⟨[(0, ⟨"keyring:u1@svc", [104, 117, 110, 116, 101, 114, 50]⟩)],
        1, [0], [0], 3, 3, none⟩ : KernelState).persistent ∧
        j ≠ (⟨"keyring:u1@svc", 0⟩ : Credential).kid)) ∧
    get_password ⟨[(0, ⟨"keyring:u1@svc", [104, 117, 110, 116, 101, 114, 50]⟩)],
        1, [], [0], 3, 3, none⟩ ⟨"keyring:u1@svc", 0⟩ = .error .NoEntry ∧
    (∀ service user target c2 k2,
      construct ⟨[(0, ⟨"keyring:u1@svc", [104, 117, 110, 116, 101, 114, 50]⟩)],
          1, [], [0], 3, 3, none⟩ service user target = .ok (c2, k2) →
      searchPersistent ⟨[(0, ⟨"keyring:u1@svc", [104, 117, 110, 116, 101, 114, 50]⟩)],
          1, [], [0], 3, 3, none⟩ (resolve service user target) = none →
      get_password k2 c2 = .ok "") :=
  claim_C5_delete
    ⟨[(0, ⟨"keyring:u1@svc", [104, 117, 110, 116, 101, 114, 50]⟩)],
      1, [0], [0], 3, 3, none⟩
    ⟨"keyring:u1@svc", 0⟩
    ⟨[(0, ⟨"keyring:u1@svc", [104, 117, 110, 116, 101, 114, 50]⟩)],
      1, [], [0], 3, 3, none⟩
    rfl (by decide)

/-- Claim C6: every successful Credential construction eagerly searches the
Persistent Keyring for the resolved description, creates a new key with empty
payload there if absent, and resets the Persistent Keyring expiration timer
to the kernel-configured default; construction itself can fail with
PlatformFailure; and the timer reset happens on construction, not on secret
access. -/
theorem claim_C6_construction (k kf : KernelState) (code : Int)
    (service user : String) (target : Option String)
    (kid2 : Nat) (bytes : List Nat) (k2 : KernelState)
    (hf : k.fault = none) (hff : kf.fault = some code)
    (hset : set_secret k kid2 bytes = .ok k2) :
    (∃ c k1, construct k service user target = .ok (c, k1) ∧
      k1.expiry = k.defaultExpiry ∧
      c.description = resolve service user target ∧
      c.kid ∈ k1.persistent ∧
      (∀ kid, searchPersistent k (resolve service user target) = some kid →
        c.kid = kid ∧ k1.keys = k.keys) ∧
      (searchPersistent k (resolve service user target) = none →
        c.kid = k.nextId ∧
        lookupKey k1 c.kid = some ⟨resolve service user target, []⟩)) ∧
    construct kf service user target = .error (.PlatformFailure code) ∧
    k2.expiry = k.expiry := by
  refine ⟨?_, ?_, ?_⟩
  · cases hs : searchPersistent k (resolve service user target) with
    | some kid =>
      have hfc : find_or_create k (resolve service user target) = .ok (kid, k) := by
        unfold find_or_create
        rw [hf, hs]
      have hcx : construct k service user target =
          .ok (⟨resolve service user target, kid⟩, refresh_expiry k kid) := by
        unfold construct
        rw [hfc]
      obtain ⟨hmem, -⟩ := searchPersistent_some k (resolve service user target) kid hs
      refine ⟨⟨resolve service user target, kid⟩, refresh_expiry k kid, hcx, rfl, rfl,
        hmem, ?_, ?_⟩
      · intro kid0 hs0
        cases hs0
        exact ⟨rfl, rfl⟩
      · intro hs0
        cases hs0
    | none =>
      have hcx := construct_create k service user target hf hs
      refine ⟨⟨resolve service user target, k.nextId⟩, _, hcx, rfl, rfl,
        List.mem_cons_self _ _, ?_, ?_⟩
      · intro kid0 hs0
        cases hs0
      · intro _
        refine ⟨rfl, ?_⟩
        unfold lookupKey
        rw [List.find?_cons_of_pos _ (by simp)]
        rfl
  · unfold construct find_or_create
    rw [hff]
  · obtain ⟨-, hexp, -, -, -, -, -⟩ := set_secret_ok k kid2 bytes k2 hset
    exact hexp

/-- Witness for claim C6 at concrete states, one healthy and one with an
injected kernel fault. -/
theorem claim_C6_construction_witness :
    (∃ c k1, construct ⟨[(0, ⟨"keyring:u1@svc", []⟩)], 1, [0], [], 3, 3, none⟩
        "svc" "u1" none = .ok (c, k1) ∧
      k1.expiry = (⟨[(0, ⟨"keyring:u1@svc", []⟩)], 1, [0], [], 3, 3, none⟩ :
        KernelState).defaultExpiry ∧
      c.description = resolve "svc" "u1" none ∧
      c.kid ∈ k1.persistent ∧
      (∀ kid, searchPersistent ⟨[(0, ⟨"keyring:u1@svc", []⟩)], 1, [0], [], 3, 3, none⟩
          (resolve "svc" "u1" none) = some kid →
        c.kid = kid ∧ k1.keys =
          (⟨[(0, ⟨"keyring:u1@svc", []⟩)], 1, [0], [], 3, 3, none⟩ : KernelState).keys) ∧
      (searchPersistent ⟨[(0, ⟨"keyring:u1@svc", []⟩)], 1, [0], [], 3, 3, none⟩
          (resolve "svc" "u1" none) = none →
        c.kid = (⟨[(0, ⟨"keyring:u1@svc", []⟩)], 1, [0], [], 3, 3, none⟩ :
          KernelState).nextId ∧
        lookupKey k1 c.kid = some ⟨resolve "svc" "u1" none, []⟩)) ∧
    construct ⟨[], 0, [], [], 0, 3, some 13⟩ "svc" "u1" none =
      .error (.PlatformFailure 13) ∧
    (⟨[(0, ⟨"keyring:u1@svc", [112]⟩)], 1, [0], [0], 3, 3, none⟩ :
        KernelState).expiry =
      (⟨[(0, ⟨"keyring:u1@svc", []⟩)], 1, [0], [], 3, 3, none⟩ : KernelState).expiry :=
  claim_C6_construction ⟨[(0, ⟨"keyring:u1@svc", []⟩)], 1, [0], [], 3, 3, none⟩
    ⟨[], 0, [], [], 0, 3, some 13⟩ 13 "svc" "u1" none 0 [112]
    ⟨[(0, ⟨"keyring:u1@svc", [112]⟩)], 1, [0], [0], 3, 3, none⟩
    rfl rfl (by decide)

/-- Claim C7: on every successful set_secret, and hence every successful
set_password, the key is additionally linked into the Session Keyring, so the
credential remains alive for the remainder of the login session even if the
Persistent Keyring independently expires. -/
theorem claim_C7_session_link (k : KernelState) (kid : Nat) (bytes : List Nat)
    (k1 : KernelState) (kp : KernelState) (c : Credential) (s : String)
    (ks : KernelState)
    (hset : set_secret k kid bytes = .ok k1)
    (hpw : set_password kp c s = .ok ks) :
    kid ∈ k1.session ∧
    (∀ j, j ∈ k.session → j ∈ k1.session) ∧
    keyAlive (expirePersistent k1) kid ∧
    set_password kp c s = set_secret kp c.kid (utf8Encode s) ∧
    c.kid ∈ ks.session := by
  obtain ⟨-, -, -, -, hmem, hmono, -⟩ := set_secret_ok k kid bytes k1 hset
  obtain ⟨-, -, -, -, hmem2, -, -⟩ := set_secret_ok kp c.kid (utf8Encode s) ks hpw
  exact ⟨hmem, hmono, Or.inr hmem, rfl, hmem2⟩

/-- Witness for claim C7 at a concrete set_secret and set_password run. -/
theorem claim_C7_session_link_witness :
    (0 : Nat) ∈ (⟨[(0, ⟨"keyring:u1@svc", [112]⟩)], 1, [0], [0], 3, 3, none⟩ :
      KernelState).session ∧
    (∀ j, j ∈ (⟨[(0, ⟨"keyring:u1@svc", []⟩)], 1, [0], [], 3, 3, none⟩ :
        KernelState).session →
      j ∈ (⟨[(0, ⟨"keyring:u1@svc", [112]⟩)], 1, [0], [0], 3, 3, none⟩ :
        KernelState).session) ∧
    keyAlive (expirePersistent
      ⟨[(0, ⟨"keyring:u1@svc", [112]⟩)], 1, [0], [0], 3, 3, none⟩) 0 ∧
    set_password ⟨[(0, ⟨"keyring:u1@svc", []⟩)], 1, [0], [], 3, 3, none⟩
        ⟨"keyring:u1@svc", 0⟩ "p" =
      set_secret ⟨[(0, ⟨"keyring:u1@svc", []⟩)], 1, [0], [], 3, 3, none⟩
        (⟨"keyring:u1@svc", 0⟩ : Credential).kid (utf8Encode "p") ∧
    (⟨"keyring:u1@svc", 0⟩ : Credential).kid ∈
      (⟨[(0, ⟨"keyring:u1@svc", [112]⟩)], 1, [0], [0], 3, 3, none⟩ :
        KernelState).session :=
  claim_C7_session_link ⟨[(0, ⟨"keyring:u1@svc", []⟩)], 1, [0], [], 3, 3, none⟩ 0 [112]
    ⟨[(0, ⟨"keyring:u1@svc", [112]⟩)], 1, [0], [0], 3, 3, none⟩
    ⟨[(0, ⟨"keyring:u1@svc", []⟩)], 1, [0], [], 3, 3, none⟩
    ⟨"keyring:u1@svc", 0⟩ "p"
    ⟨[(0, ⟨"keyring:u1@svc", [112]⟩)], 1, [0], [0], 3, 3, none⟩
    (by decide) (by decide)

/-- Counterexample to claim C8 as stated: the derivation is not collision-free
across all distinct (service, user) pairs — a user name containing the marker
character collides with a service name absorbing it. -/
theorem claim_C8_counterexample :
    resolve "b@c" "a" none = resolve "c" "a@b" none ∧
    ¬ ((("b@c" : String), ("a" : String)) = (("c" : String), ("a@b" : String))) := by
  refine ⟨by decide, by decide⟩

/-- Claim C8 (amended): resolve is deterministic — two calls with identical
inputs yield identical output — and, restricted to user names that do not
contain the at-sign, the derivation without explicit target is collision-free
across distinct pairs except by exact string equality. -/
theorem claim_C8_resolve (s1 u1 s2 u2 : String)
    (hu1 : ('@' : Char) ∉ u1.data) (hu2 : ('@' : Char) ∉ u2.data)
    (heq : resolve s1 u1 none = resolve s2 u2 none) :
    s1 = s2 ∧ u1 = u2 ∧
    (∀ sv us : String, ∀ tg : Option String, resolve sv us tg = resolve sv us tg) := by
  have hdata := congrArg String.data heq
  rw [resolve_data, resolve_data] at hdata
  have hcan := List.append_cancel_left hdata
  obtain ⟨hu, hsrv⟩ := append_marker_inj u1.data u2.data s1.data s2.data hu1 hu2 hcan
  exact ⟨String.ext hsrv, String.ext hu, fun _ _ _ => rfl⟩

/-- Witness for the amended claim C8 at concrete at-sign-free inputs. -/
theorem claim_C8_resolve_witness :
    ("svc" : String) = "svc" ∧ ("u1" : String) = "u1" ∧
    (∀ sv us : String, ∀ tg : Option String, resolve sv us tg = resolve sv us tg) :=
  claim_C8_resolve "svc" "u1" "svc" "u1" (by decide) (by decide) rfl
